import Mathlib

/-!
Verification development for the asynchronous job-orchestration layer of the
FinSight document-processing backend (FastAPI + Celery + Redis).

The repository ships the orchestration layer's documentation (the async
processing guide, the job-queue setup guide) and the worker launch script;
the Python modules themselves (`main.py`, `celery_app.py`,
`tasks/document_processing.py`, the Redis cache helper) are not part of the
checked-in tree.  The definitions below are therefore a shallow embedding
modelled from the specification and from the repository's own documentation
of each endpoint and of the task body: the documented request/response
shapes, the documented Celery task states (PENDING, PROCESSING, SUCCESS,
FAILURE), the documented queue routing (`queue='document_processing'`,
worker `--queues=document_processing`), and the documented cache behaviour
(check cache before queueing, cache results after successful processing).
-/

namespace FinSight

/-- Document type tags accepted by the `/process` endpoint
(`bank_statement`, `invoice`, `trial_balance`). -/
inductive DocumentType where
  | bank_statement
  | invoice
  | trial_balance
deriving DecidableEq, Repr

/-- A submitted document: we model only its content bytes (as a string)
and its file name, which is all the orchestration layer inspects. -/
structure Document where
  content : String
  filename : String
deriving DecidableEq, Repr

/-- Modelled from the spec: a fingerprint is a deterministic digest of
(document content, document type) used only as a cache key, never for
ordering.  We reify the digest as the pair itself, which is deterministic
and injective, hence a faithful model of a collision-free digest. -/
abbrev Fingerprint := String × DocumentType

/-- Compute the fingerprint of a (document, documentType) pair. -/
def fingerprint (d : Document) (t : DocumentType) : Fingerprint :=
  (d.content, t)

/-- The Celery task states documented in the job-queue guide:
PENDING (waiting), PROCESSING (custom in-flight state), SUCCESS, FAILURE. -/
inductive CeleryState where
  | PENDING
  | PROCESSING
  | SUCCESS
  | FAILURE
deriving DecidableEq, Repr

/-- A state is terminal when the job can no longer change: SUCCESS or
FAILURE. -/
def isTerminal : CeleryState → Bool
  | .SUCCESS => true
  | .FAILURE => true
  | _ => false

/-- The result payload of a completed job, as documented for the
`/job/{id}/result` endpoint: extracted data, generated reports, the document
type and the original file name.  The extraction output itself is opaque to
the orchestration layer, so we model the two opaque blobs as strings. -/
structure ResultPayload where
  extracted_data : String
  reports : String
  document_type : DocumentType
  filename : String
deriving DecidableEq, Repr

/-- A structured error: the documented failure response carries an
`error_type` (kind) and an `error` message. -/
structure StructuredError where
  kind : String
  message : String
deriving DecidableEq, Repr

/-- The per-task record kept in the Celery result backend for a job id:
the task state, the progress/message meta written by `update_state`, the
task's return value (`task.result`) and the `result` entry of the task's
info dict (`task.info['result']`, the documented fallback read path). -/
structure TaskMeta where
  state : CeleryState
  progress : Nat
  message : String
  result : Option ResultPayload
  info_result : Option ResultPayload
  error : Option StructuredError
deriving DecidableEq, Repr

/-- Association-list lookup keyed by decidable equality. -/
def alookup {κ β : Type} [DecidableEq κ] : List (κ × β) → κ → Option β
  | [], _ => none
  | (k, v) :: rest, key => if k = key then some v else alookup rest key

/-- Association-list overwrite: replaces the binding for `key` when present,
appends it otherwise. -/
def aset {κ β : Type} [DecidableEq κ] : List (κ × β) → κ → β → List (κ × β)
  | [], key, v => [(key, v)]
  | (k, v0) :: rest, key, v =>
      if k = key then (key, v) :: rest else (k, v0) :: aset rest key v

theorem alookup_aset_self {κ β : Type} [DecidableEq κ]
    (l : List (κ × β)) (key : κ) (v : β) :
    alookup (aset l key v) key = some v := by
  induction l with
  | nil => simp [aset, alookup]
  | cons hd tl ih =>
      by_cases h : hd.1 = key
      · simp [aset, h, alookup]
      · simp [aset, h, alookup, ih]

theorem alookup_aset_ne {κ β : Type} [DecidableEq κ]
    (l : List (κ × β)) (key other : κ) (v : β) (h : other ≠ key) :
    alookup (aset l key v) other = alookup l other := by
  induction l with
  | nil => simp [aset, alookup, Ne.symm h]
  | cons hd tl ih =>
      by_cases hk : hd.1 = key
      · subst hk
        simp [aset, alookup, Ne.symm h]
      · simp [aset, hk, alookup, ih]

/-- The Celery result backend: a keyed store of task records by job id. -/
structure Backend where
  entries : List (String × TaskMeta)
deriving DecidableEq, Repr

/-- Raw backend lookup: the stored record for a job id, if any. -/
def Backend.lookup (b : Backend) (id : String) : Option TaskMeta :=
  alookup b.entries id

/-- Overwrite the stored record for a job id. -/
def Backend.set (b : Backend) (id : String) (m : TaskMeta) : Backend :=
  ⟨aset b.entries id m⟩

/-- The record Celery reports for a job id that has no stored state:
state PENDING, no progress meta, no result, no error.  This is the
documented "PENDING: Job is waiting to be processed" default — Celery
reports PENDING for any id it has never seen. -/
def pendingMeta : TaskMeta :=
  { state := .PENDING
    progress := 0
    message := "Job is waiting to be processed"
    result := none
    info_result := none
    error := none }

/-- Modelled from the spec and the job-queue guide: `AsyncResult(job_id)` —
reading a job id from the result backend.  An id with no stored record
reads as the PENDING default; this is the backend read used by the status
and result endpoints. -/
def asyncResult (b : Backend) (id : String) : TaskMeta :=
  (b.lookup id).getD pendingMeta

/-- Modelled from the spec: the Job Store update operation
(`update_state` on the backend record).  Atomic read-modify-write of the
record for `id`, with the terminal-immutability guard of §4.2: an update
of a job already in a terminal state is a no-op. -/
def Backend.update (b : Backend) (id : String) (f : TaskMeta → TaskMeta) :
    Backend :=
  let m := asyncResult b id
  if isTerminal m.state then b else b.set id (f m)

/-- The Result Cache: fingerprint-keyed store of successful result
payloads, held in Redis.  `put` overwrites unconditionally. -/
structure Cache where
  entries : List (Fingerprint × ResultPayload)
deriving DecidableEq, Repr

/-- Cache lookup by fingerprint. -/
def Cache.lookup (c : Cache) (fp : Fingerprint) : Option ResultPayload :=
  alookup c.entries fp

/-- Cache write: overwrites any existing entry for the fingerprint. -/
def Cache.put (c : Cache) (fp : Fingerprint) (r : ResultPayload) : Cache :=
  ⟨aset c.entries fp r⟩

/-- The string the status endpoint exposes in its `status` field for each
Celery state, as documented: PENDING reads as `queued`, PROCESSING as
`processing`, SUCCESS as `completed`, FAILURE as `failed`. -/
def statusName : CeleryState → String
  | .PENDING => "queued"
  | .PROCESSING => "processing"
  | .SUCCESS => "completed"
  | .FAILURE => "failed"

/-- The wire name of each Celery state (the `state` field of the status
response). -/
def stateName : CeleryState → String
  | .PENDING => "PENDING"
  | .PROCESSING => "PROCESSING"
  | .SUCCESS => "SUCCESS"
  | .FAILURE => "FAILURE"

/-- The documented response shape of `GET /job/{id}/status`: job id echo,
a coarse `status` string, the raw Celery `state`, progress and message,
the result embedded inline when completed, the structured error when
failed. -/
structure StatusResponse where
  job_id : String
  status : String
  state : String
  progress : Nat
  message : String
  result : Option ResultPayload
  error : Option StructuredError
deriving DecidableEq, Repr

/-- Modelled from the spec: the `/job/{id}/status` endpoint.  It reads the
task record through `asyncResult` and renders it; when the task state is
SUCCESS the result payload is embedded inline (the documented completed
response), when FAILURE the structured error is attached. -/
def jobStatus (b : Backend) (id : String) : StatusResponse :=
  let m := asyncResult b id
  { job_id := id
    status := statusName m.state
    state := stateName m.state
    progress := m.progress
    message := m.message
    result := if m.state = .SUCCESS then m.result else none
    error := if m.state = .FAILURE then m.error else none }

/-- The outcome of `GET /job/{id}/result`: the full payload when the job
completed, an explicit pending indicator otherwise, the structured error
when the job failed. -/
inductive ResultResponse where
  | completed (r : ResultPayload)
  | pending (message : String)
  | failed (e : StructuredError)
deriving DecidableEq, Repr

/-- Modelled from the spec: the `/job/{id}/result` endpoint.  On SUCCESS it
reads `task.result` and falls back to `task.info['result']` (the two
documented read paths); on FAILURE it reports the structured error; in any
other state it reports pending. -/
def jobResult (b : Backend) (id : String) : ResultResponse :=
  let m := asyncResult b id
  match m.state with
  | .SUCCESS =>
      match m.result with
      | some r => .completed r
      | none =>
          match m.info_result with
          | some r => .completed r
          | none => .pending "Result not available yet"
  | .FAILURE =>
      .failed (m.error.getD { kind := "Unknown", message := m.message })
  | _ => .pending "Job has not finished processing"

/-- The reified behaviour of one invocation of the external extraction
pipeline (`run(document, documentType, progressCallback)`): the sequence of
`(percent, message)` progress callbacks it issues, followed by either a
normal return carrying the result payload or a raised error.  The pipeline
is an external collaborator, so its behaviour is an input of the worker
model. -/
inductive PipelineRun where
  | ok (steps : List (Nat × String)) (r : ResultPayload)
  | err (steps : List (Nat × String)) (e : StructuredError)
deriving DecidableEq, Repr

/-- The progress callbacks a pipeline run issues before finishing. -/
def PipelineRun.steps : PipelineRun → List (Nat × String)
  | .ok steps _ => steps
  | .err steps _ => steps

/-- The worker's first write for a dequeued task: `update_state` to the
custom PROCESSING state with zero progress. -/
def markProcessing (id : String) (b : Backend) : Backend :=
  b.update id fun m =>
    { m with
        state := .PROCESSING
        progress := 0
        message := "Starting document processing" }

/-- One progress callback translated into a Job Store update:
`update_state(state='PROCESSING', meta=...)` with the callback's percent
and message. -/
def applyStep (id : String) (b : Backend) (s : Nat × String) : Backend :=
  b.update id fun m =>
    { m with state := .PROCESSING, progress := s.1, message := s.2 }

/-- The worker's success write: the terminal SUCCESS record with progress
100 and the result payload stored both as the task's return value
(`task.result`) and in the info dict (`task.info['result']`). -/
def writeSuccess (id : String) (r : ResultPayload) (b : Backend) : Backend :=
  b.update id fun m =>
    { m with
        state := .SUCCESS
        progress := 100
        message := "Processing completed successfully"
        result := some r
        info_result := some r
        error := none }

/-- The worker's failure write: the terminal FAILURE record carrying the
structured (kind, message) error; no result is stored and the last reported
progress is kept. -/
def writeFailure (id : String) (e : StructuredError) (b : Backend) : Backend :=
  b.update id fun m =>
    { m with
        state := .FAILURE
        message := "Processing failed: " ++ e.message
        result := none
        info_result := none
        error := some e }

/-- Modelled from the spec: the worker's task body
(`tasks/document_processing.py`) with its try/except structure made
explicit.  It marks the job PROCESSING, replays each progress callback as a
Job Store update, then inspects the pipeline's outcome: a normal return
leads to the SUCCESS write and a write-through of the result to the Result
Cache under the task's fingerprint; a raised error is caught by the
except-branch, which records the FAILURE state with the structured error
and returns normally.  An uncaught propagation out of the task body would
surface as `Except.error`; the except-branch never produces one. -/
def runTaskBody (id : String) (fp : Fingerprint) (p : PipelineRun)
    (b : Backend) (c : Cache) :
    Except StructuredError (Backend × Cache) :=
  let b0 := markProcessing id b
  match p with
  | .ok steps r =>
      let b1 := steps.foldl (applyStep id) b0
      .ok (writeSuccess id r b1, c.put fp r)
  | .err steps e =>
      let b1 := steps.foldl (applyStep id) b0
      .ok (writeFailure id e b1, c)

/-- The task body as a state transformer.  A propagated (uncaught) error
would leave the backend and cache as the body left them mid-flight; the
body never propagates, so this branch is dead. -/
def runTask (id : String) (fp : Fingerprint) (p : PipelineRun)
    (b : Backend) (c : Cache) : Backend × Cache :=
  match runTaskBody id fp p b c with
  | .ok out => out
  | .error _ => (b, c)

/-- Modelled from the spec: one delivery of a task to a worker (§4.5).
The worker looks up the referenced job; a job already in a terminal state
is discarded unchanged (the idempotence guard for at-least-once
redelivery); otherwise the task body runs. -/
def processTask (id : String) (fp : Fingerprint) (p : PipelineRun)
    (bc : Backend × Cache) : Backend × Cache :=
  if isTerminal (asyncResult bc.1 id).state then bc
  else runTask id fp p bc.1 bc.2

/-- A task message: the job id it references, the fingerprint of the
submitted document, and the name of the queue it was routed to. -/
structure TaskMsg where
  job_id : String
  fp : Fingerprint
  queue : String
deriving DecidableEq, Repr

/-- The dedicated queue the `/process` endpoint routes tasks to:
`queue='document_processing'` in the documented `apply_async` call, and the
target of the `tasks.document_processing.*` routing rule in
`celery_app.py`. -/
def documentProcessingQueue : String := "document_processing"

/-- Celery's shared default queue name, which this workload must not use. -/
def celeryDefaultQueue : String := "celery"

/-- The queues the worker pool consumes, from
`src/backend/start_celery_worker.sh`: `--queues=document_processing`. -/
def workerConsumedQueues : List String := ["document_processing"]

/-- The documented response of `POST /process`: a job id when work was
queued, a coarse status string, a message, the original file name, the
`cached` flag, and the result inline on a cache hit. -/
structure SubmitResponse where
  job_id : Option String
  status : String
  message : String
  filename : String
  cached : Bool
  result : Option ResultPayload
deriving DecidableEq, Repr

/-- Modelled from the spec: the `/process` endpoint (submission).  It
computes the fingerprint and checks the Result Cache first: on a hit the
cached payload is returned synchronously with `cached := true` and nothing
else happens (no job, no enqueue); on a miss a fresh job id is issued, a
task referencing it is enqueued on the dedicated `document_processing`
queue, and the id is returned with `cached := false` and status `queued`.
The enqueued-but-unstarted job has no backend record yet: its queued state
is what `asyncResult` reports for the fresh id. -/
def submit (c : Cache) (b : Backend) (q : List TaskMsg)
    (d : Document) (t : DocumentType) (newId : String) :
    SubmitResponse × Backend × List TaskMsg :=
  let fp := fingerprint d t
  match c.lookup fp with
  | some r =>
      ({ job_id := none
         status := "completed"
         message := "Returning cached result"
         filename := d.filename
         cached := true
         result := some r }, b, q)
  | none =>
      ({ job_id := some newId
         status := "queued"
         message := "Document processing started"
         filename := d.filename
         cached := false
         result := none }, b,
       q ++ [{ job_id := newId, fp := fp, queue := documentProcessingQueue }])

/-- The list of backend states a poller can observe across one task
execution, in write order: the initial state, the PROCESSING mark, one
state per progress callback, and the terminal state the task body leaves
behind. -/
def stepSnapshots (id : String) (b0 : Backend) :
    List (Nat × String) → List Backend
  | [] => [b0]
  | s :: ss => b0 :: stepSnapshots id (applyStep id b0 s) ss

/-- All backend states written during one task-body execution, in order:
initial, PROCESSING mark and per-callback states, then the terminal
state. -/
def taskSnapshots (id : String) (fp : Fingerprint) (p : PipelineRun)
    (b : Backend) (c : Cache) : List Backend :=
  b :: stepSnapshots id (markProcessing id b) p.steps
    ++ [(runTask id fp p b c).1]

/-- The progress values a poller observes for job `id` across one task
execution. -/
def progressTrace (id : String) (fp : Fingerprint) (p : PipelineRun)
    (b : Backend) (c : Cache) : List Nat :=
  (taskSnapshots id fp p b c).map fun bk => (asyncResult bk id).progress

/-- Last element of a list, or the default when the list is empty. -/
def lastD : List Nat → Nat → Nat
  | [], d => d
  | x :: xs, _ => lastD xs x

theorem lastD_cons (x : Nat) (xs : List Nat) (d : Nat) :
    lastD (x :: xs) d = lastD xs x := rfl

/-- The fully determined record a job carries after the success write. -/
def successMeta (r : ResultPayload) : TaskMeta :=
  { state := .SUCCESS
    progress := 100
    message := "Processing completed successfully"
    result := some r
    info_result := some r
    error := none }

/-- The record a job carries after the failure write, keeping the last
reported progress. -/
def failureMeta (e : StructuredError) (prog : Nat) : TaskMeta :=
  { state := .FAILURE
    progress := prog
    message := "Processing failed: " ++ e.message
    result := none
    info_result := none
    error := some e }

theorem asyncResult_set_self (b : Backend) (id : String) (m : TaskMeta) :
    asyncResult (b.set id m) id = m := by
  simp [asyncResult, Backend.lookup, Backend.set, alookup_aset_self]

theorem update_eq_set (b : Backend) (id : String) (f : TaskMeta → TaskMeta)
    (h : isTerminal (asyncResult b id).state = false) :
    b.update id f = b.set id (f (asyncResult b id)) := by
  simp [Backend.update, h]

theorem update_terminal_noop (b : Backend) (id : String)
    (f : TaskMeta → TaskMeta)
    (h : isTerminal (asyncResult b id).state = true) :
    b.update id f = b := by
  simp [Backend.update, h]

theorem isTerminal_PROCESSING : isTerminal .PROCESSING = false := rfl

theorem asyncResult_markProcessing (b : Backend) (id : String)
    (h : isTerminal (asyncResult b id).state = false) :
    asyncResult (markProcessing id b) id =
      { asyncResult b id with
          state := .PROCESSING
          progress := 0
          message := "Starting document processing" } := by
  rw [markProcessing, update_eq_set _ _ _ h, asyncResult_set_self]

theorem asyncResult_applyStep (b0 : Backend) (id : String) (s : Nat × String)
    (h : (asyncResult b0 id).state = .PROCESSING) :
    asyncResult (applyStep id b0 s) id =
      { asyncResult b0 id with
          state := .PROCESSING, progress := s.1, message := s.2 } := by
  have hterm : isTerminal (asyncResult b0 id).state = false := by
    rw [h]; rfl
  rw [applyStep, update_eq_set _ _ _ hterm, asyncResult_set_self]

theorem foldl_applyStep_meta (id : String) :
    ∀ (ss : List (Nat × String)) (b0 : Backend),
      (asyncResult b0 id).state = .PROCESSING →
      (asyncResult (ss.foldl (applyStep id) b0) id).state = .PROCESSING ∧
      (asyncResult (ss.foldl (applyStep id) b0) id).progress =
        lastD (ss.map Prod.fst) (asyncResult b0 id).progress := by
  intro ss
  induction ss with
  | nil => intro b0 h; exact ⟨h, rfl⟩
  | cons s rest ih =>
      intro b0 h
      have hstep := asyncResult_applyStep b0 id s h
      have hp : (asyncResult (applyStep id b0 s) id).state = .PROCESSING := by
        rw [hstep]
      have hprog : (asyncResult (applyStep id b0 s) id).progress = s.1 := by
        rw [hstep]
      have ih2 := ih (applyStep id b0 s) hp
      refine ⟨by rw [List.foldl_cons]; exact ih2.1, ?_⟩
      rw [List.foldl_cons, ih2.2, hprog, List.map_cons, lastD_cons]

theorem stepSnapshots_map_progress (id : String) :
    ∀ (ss : List (Nat × String)) (b0 : Backend),
      (asyncResult b0 id).state = .PROCESSING →
      ((stepSnapshots id b0 ss).map fun bk => (asyncResult bk id).progress)
        = (asyncResult b0 id).progress :: ss.map Prod.fst := by
  intro ss
  induction ss with
  | nil => intro b0 _; rfl
  | cons s rest ih =>
      intro b0 h
      have hstep := asyncResult_applyStep b0 id s h
      have hp : (asyncResult (applyStep id b0 s) id).state = .PROCESSING := by
        rw [hstep]
      have := ih (applyStep id b0 s) hp
      simp only [stepSnapshots, List.map_cons, this, hstep, List.map]

theorem runTask_ok_meta (id : String) (fp : Fingerprint)
    (steps : List (Nat × String)) (r : ResultPayload)
    (b : Backend) (c : Cache)
    (h : isTerminal (asyncResult b id).state = false) :
    asyncResult (runTask id fp (.ok steps r) b c).1 id = successMeta r ∧
    (runTask id fp (.ok steps r) b c).2 = c.put fp r := by
  have hmark := asyncResult_markProcessing b id h
  have hp : (asyncResult (markProcessing id b) id).state = .PROCESSING := by
    rw [hmark]
  have hfold := foldl_applyStep_meta id steps (markProcessing id b) hp
  have hterm :
      isTerminal
        (asyncResult (steps.foldl (applyStep id) (markProcessing id b))
          id).state = false := by
    rw [hfold.1]; rfl
  constructor
  · show asyncResult (writeSuccess id r _) id = successMeta r
    rw [writeSuccess, update_eq_set _ _ _ hterm, asyncResult_set_self]
    rfl
  · rfl

theorem runTask_err_meta (id : String) (fp : Fingerprint)
    (steps : List (Nat × String)) (e : StructuredError)
    (b : Backend) (c : Cache)
    (h : isTerminal (asyncResult b id).state = false) :
    asyncResult (runTask id fp (.err steps e) b c).1 id =
      failureMeta e (lastD (steps.map Prod.fst) 0) ∧
    (runTask id fp (.err steps e) b c).2 = c := by
  have hmark := asyncResult_markProcessing b id h
  have hp : (asyncResult (markProcessing id b) id).state = .PROCESSING := by
    rw [hmark]
  have hfold := foldl_applyStep_meta id steps (markProcessing id b) hp
  have hterm :
      isTerminal
        (asyncResult (steps.foldl (applyStep id) (markProcessing id b))
          id).state = false := by
    rw [hfold.1]; rfl
  constructor
  · show asyncResult (writeFailure id e _) id = _
    rw [writeFailure, update_eq_set _ _ _ hterm, asyncResult_set_self]
    have hprog := hfold.2
    rw [hmark] at hprog
    simp only [failureMeta]
    rw [hprog]
  · rfl

/-- After any task-body execution the referenced job's state is terminal:
SUCCESS on pipeline return, FAILURE on pipeline error. -/
theorem runTask_terminal (id : String) (fp : Fingerprint) (p : PipelineRun)
    (b : Backend) (c : Cache)
    (h : isTerminal (asyncResult b id).state = false) :
    isTerminal (asyncResult (runTask id fp p b c).1 id).state = true := by
  cases p with
  | ok steps r =>
      rw [(runTask_ok_meta id fp steps r b c h).1]
      rfl
  | err steps e =>
      rw [(runTask_err_meta id fp steps e b c h).1]
      rfl

theorem asyncResult_of_lookup_none (b : Backend) (id : String)
    (h : b.lookup id = none) : asyncResult b id = pendingMeta := by
  simp [asyncResult, h]

theorem status_of_lookup_none (b : Backend) (id : String)
    (h : b.lookup id = none) : (jobStatus b id).status = "queued" := by
  simp [jobStatus, asyncResult_of_lookup_none b id h, pendingMeta, statusName]

/-- C4 counterexample: for a job whose task reached the SUCCESS state, the
status endpoint exposes the status string `completed`, which is not among
the four values `queued`, `processing`, `succeeded`, `failed` the claim
allows. -/
theorem C4_counterexample :
    (jobStatus
        (Backend.mk
          [("job-1",
            successMeta
              { extracted_data := "data"
                reports := "reports"
                document_type := .invoice
                filename := "inv.pdf" })])
        "job-1").status = "completed" ∧
    "completed" ∉ (["queued", "processing", "succeeded", "failed"] :
      List String) := by
  constructor
  · rfl
  · decide

/-- C4 (amended): at every point in a job's lifetime its exposed status is
one of exactly the four strings `queued`, `processing`, `completed`,
`failed` — the success terminal value the Status interface exposes is
`completed` (Celery state SUCCESS), not `succeeded`. -/
theorem C4_status_is_one_of_four (b : Backend) (id : String) :
    (jobStatus b id).status ∈
      (["queued", "processing", "completed", "failed"] : List String) := by
  cases h : (asyncResult b id).state <;>
    simp [jobStatus, statusName, h]

/-- C5: once a job is in a terminal state (SUCCESS or FAILURE), every
subsequent Job Store update is a no-op: the stored record, the status
response and the result response are all unchanged. -/
theorem C5_terminal_jobs_immutable (b : Backend) (id : String)
    (f : TaskMeta → TaskMeta)
    (h : isTerminal (asyncResult b id).state = true) :
    b.update id f = b ∧
    jobStatus (b.update id f) id = jobStatus b id ∧
    jobResult (b.update id f) id = jobResult b id := by
  have hno := update_terminal_noop b id f h
  exact ⟨hno, by rw [hno], by rw [hno]⟩

theorem C5_witness :
    isTerminal
      (asyncResult
        (Backend.mk
          [("job-2",
            failureMeta { kind := "ValueError", message := "bad input" } 30)])
        "job-2").state = true ∧
    (Backend.mk
        [("job-2",
          failureMeta { kind := "ValueError", message := "bad input" } 30)]).update
      "job-2" (fun m => { m with state := .PROCESSING, progress := 99 }) =
      Backend.mk
        [("job-2",
          failureMeta { kind := "ValueError", message := "bad input" } 30)] := by
  refine ⟨by decide, ?_⟩
  exact (C5_terminal_jobs_immutable
    (Backend.mk
      [("job-2",
        failureMeta { kind := "ValueError", message := "bad input" } 30)])
    "job-2" (fun m => { m with state := .PROCESSING, progress := 99 })
    (by decide)).1

/-- C3 counterexample: a job id that was never created reads back from the
status endpoint exactly like a freshly submitted (queued) job — status
`queued`, state `PENDING` — and the result endpoint reports pending, not a
NotFound condition.  Submitting a document under that very id changes
neither response, so NotFound is not distinguishable from "still
queued". -/
theorem C3_counterexample :
    (jobStatus (Backend.mk []) "ghost-job").status = "queued" ∧
    jobResult (Backend.mk []) "ghost-job" =
      .pending "Job has not finished processing" ∧
    jobStatus
        (submit (Cache.mk []) (Backend.mk []) []
          (Document.mk "stmt" "d1.pdf") .bank_statement "ghost-job").2.1
        "ghost-job" =
      jobStatus (Backend.mk []) "ghost-job" := by
  refine ⟨rfl, rfl, rfl⟩

/-- C3 (amended): for a job id with no backend record — never created or
already expired — the status endpoint reports the PENDING default
(`status = "queued"`, `state = "PENDING"`) and the result endpoint reports
pending; the responses are identical to those of an id in an empty backend,
so a never-created id is not distinguishable from a still-queued job and no
NotFound condition is surfaced. -/
theorem C3_unknown_id_reads_as_queued (b : Backend) (id : String)
    (h : b.lookup id = none) :
    (jobStatus b id).status = "queued" ∧
    (jobStatus b id).state = "PENDING" ∧
    jobResult b id = .pending "Job has not finished processing" ∧
    jobStatus b id = jobStatus (Backend.mk []) id := by
  have h0 := asyncResult_of_lookup_none b id h
  have h1 : asyncResult (Backend.mk []) id = pendingMeta := by
    simp [asyncResult, Backend.lookup, alookup]
  refine ⟨?_, ?_, ?_, ?_⟩
  · simp [jobStatus, h0, pendingMeta, statusName]
  · simp [jobStatus, h0, pendingMeta, stateName]
  · simp [jobResult, h0, pendingMeta]
  · simp [jobStatus, h0, h1]

theorem C3_witness :
    (Backend.mk
        [("job-3",
          successMeta
            { extracted_data := "d"
              reports := "r"
              document_type := .trial_balance
              filename := "tb.xlsx" })]).lookup "unused-id" = none ∧
    (jobStatus
        (Backend.mk
          [("job-3",
            successMeta
              { extracted_data := "d"
                reports := "r"
                document_type := .trial_balance
                filename := "tb.xlsx" })])
        "unused-id").status = "queued" := by
  refine ⟨by decide, ?_⟩
  exact (C3_unknown_id_reads_as_queued
    (Backend.mk
      [("job-3",
        successMeta
          { extracted_data := "d"
            reports := "r"
            document_type := .trial_balance
            filename := "tb.xlsx" })])
    "unused-id" (by decide)).1

/-- C7: a task delivered for a job id already in a terminal state is
discarded unchanged (backend and cache untouched, the pipeline is not
re-run), and hence processing a task twice equals processing it once. -/
theorem C7_redelivery_is_noop (id : String) (fp : Fingerprint)
    (p : PipelineRun) (bc : Backend × Cache) :
    (isTerminal (asyncResult bc.1 id).state = true →
      processTask id fp p bc = bc) ∧
    processTask id fp p (processTask id fp p bc) = processTask id fp p bc := by
  constructor
  · intro h
    simp [processTask, h]
  · by_cases h : isTerminal (asyncResult bc.1 id).state = true
    · simp [processTask, h]
    · have h' : isTerminal (asyncResult bc.1 id).state = false := by
        simpa using h
      have h1 : processTask id fp p bc = runTask id fp p bc.1 bc.2 := by
        simp [processTask, h']
      have hterm := runTask_terminal id fp p bc.1 bc.2 h'
      rw [h1]
      simp [processTask, hterm]

theorem C7_witness :
    isTerminal
      (asyncResult
        (Backend.mk
          [("job-4",
            successMeta
              { extracted_data := "d4"
                reports := "r4"
                document_type := .invoice
                filename := "i.pdf" })])
        "job-4").state = true ∧
    processTask "job-4" ("doc4", .invoice)
        (.ok [(50, "halfway")]
          { extracted_data := "other"
            reports := "other"
            document_type := .invoice
            filename := "i.pdf" })
        (Backend.mk
          [("job-4",
            successMeta
              { extracted_data := "d4"
                reports := "r4"
                document_type := .invoice
                filename := "i.pdf" })], Cache.mk []) =
      (Backend.mk
        [("job-4",
          successMeta
            { extracted_data := "d4"
              reports := "r4"
              document_type := .invoice
              filename := "i.pdf" })], Cache.mk []) := by
  refine ⟨by decide, ?_⟩
  exact (C7_redelivery_is_noop "job-4" ("doc4", .invoice)
    (.ok [(50, "halfway")]
      { extracted_data := "other"
        reports := "other"
        document_type := .invoice
        filename := "i.pdf" })
    (Backend.mk
      [("job-4",
        successMeta
          { extracted_data := "d4"
            reports := "r4"
            document_type := .invoice
            filename := "i.pdf" })], Cache.mk [])).1 (by decide)

/-- C1: every execution of the worker's task body returns normally — the
try/except never lets the pipeline's error propagate out — the referenced
job always ends in a terminal state, and when the pipeline raises, the job
is marked FAILURE carrying the structured (kind, message) error, so no job
is left stuck in processing because of a pipeline failure. -/
theorem C1_pipeline_errors_never_propagate (id : String) (fp : Fingerprint)
    (p : PipelineRun) (b : Backend) (c : Cache)
    (h : isTerminal (asyncResult b id).state = false) :
    (∃ out, runTaskBody id fp p b c = Except.ok out) ∧
    isTerminal (asyncResult (runTask id fp p b c).1 id).state = true ∧
    (∀ steps e, p = .err steps e →
      (asyncResult (runTask id fp p b c).1 id).state = .FAILURE ∧
      (asyncResult (runTask id fp p b c).1 id).error = some e) := by
  refine ⟨?_, runTask_terminal id fp p b c h, ?_⟩
  · cases p with
    | ok steps r => exact ⟨_, rfl⟩
    | err steps e => exact ⟨_, rfl⟩
  · intro steps e hp
    subst hp
    have hm := (runTask_err_meta id fp steps e b c h).1
    rw [hm]
    exact ⟨rfl, rfl⟩

theorem C1_witness :
    isTerminal (asyncResult (Backend.mk []) "job-5").state = false ∧
    ((∃ out,
        runTaskBody "job-5" ("doc5", .bank_statement)
          (.err [(10, "parsing")]
            { kind := "ValueError", message := "corrupt pdf" })
          (Backend.mk []) (Cache.mk []) = Except.ok out) ∧
      isTerminal
        (asyncResult
          (runTask "job-5" ("doc5", .bank_statement)
            (.err [(10, "parsing")]
              { kind := "ValueError", message := "corrupt pdf" })
            (Backend.mk []) (Cache.mk [])).1 "job-5").state = true ∧
      (∀ steps e,
        (PipelineRun.err [(10, "parsing")]
            { kind := "ValueError", message := "corrupt pdf" }) =
          .err steps e →
        (asyncResult
          (runTask "job-5" ("doc5", .bank_statement)
            (.err [(10, "parsing")]
              { kind := "ValueError", message := "corrupt pdf" })
            (Backend.mk []) (Cache.mk [])).1 "job-5").state = .FAILURE ∧
        (asyncResult
          (runTask "job-5" ("doc5", .bank_statement)
            (.err [(10, "parsing")]
              { kind := "ValueError", message := "corrupt pdf" })
            (Backend.mk []) (Cache.mk [])).1 "job-5").error = some e)) :=
  ⟨by decide,
   C1_pipeline_errors_never_propagate "job-5" ("doc5", .bank_statement)
     (.err [(10, "parsing")] { kind := "ValueError", message := "corrupt pdf" })
     (Backend.mk []) (Cache.mk []) (by decide)⟩

/-- C2: submission computes the fingerprint and takes exactly one of two
branches.  On a cache hit it returns the cached payload synchronously with
`cached = true`, leaving the backend and the queue untouched (no job, no
enqueue).  On a miss it returns the fresh job id with `cached = false`,
the fresh id reads back as a queued job, and exactly one task referencing
that id is appended to the `document_processing` queue. -/
theorem C2_submit_hit_or_miss (c : Cache) (b : Backend) (q : List TaskMsg)
    (d : Document) (t : DocumentType) (newId : String)
    (hfresh : b.lookup newId = none) :
    (∀ r, c.lookup (fingerprint d t) = some r →
      (submit c b q d t newId).1.cached = true ∧
      (submit c b q d t newId).1.result = some r ∧
      (submit c b q d t newId).1.job_id = none ∧
      (submit c b q d t newId).2.1 = b ∧
      (submit c b q d t newId).2.2 = q) ∧
    (c.lookup (fingerprint d t) = none →
      (submit c b q d t newId).1.cached = false ∧
      (submit c b q d t newId).1.job_id = some newId ∧
      (submit c b q d t newId).1.status = "queued" ∧
      (jobStatus (submit c b q d t newId).2.1 newId).status = "queued" ∧
      (submit c b q d t newId).2.1 = b ∧
      (submit c b q d t newId).2.2 =
        q ++ [{ job_id := newId
                fp := fingerprint d t
                queue := documentProcessingQueue }]) := by
  constructor
  · intro r hr
    simp [submit, hr]
  · intro hmiss
    have hq : (jobStatus b newId).status = "queued" :=
      status_of_lookup_none b newId hfresh
    refine ⟨?_, ?_, ?_, ?_, ?_, ?_⟩ <;> simp [submit, hmiss, hq]

theorem C2_witness :
    (Cache.mk []).lookup
        (fingerprint (Document.mk "stmt" "d2.pdf") .invoice) = none ∧
    (Backend.mk []).lookup "job-6" = none ∧
    (submit (Cache.mk []) (Backend.mk []) []
        (Document.mk "stmt" "d2.pdf") .invoice "job-6").1.cached = false ∧
    (submit (Cache.mk []) (Backend.mk []) []
        (Document.mk "stmt" "d2.pdf") .invoice "job-6").2.2 =
      [{ job_id := "job-6"
         fp := fingerprint (Document.mk "stmt" "d2.pdf") .invoice
         queue := documentProcessingQueue }] := by
  have h := (C2_submit_hit_or_miss (Cache.mk []) (Backend.mk []) []
    (Document.mk "stmt" "d2.pdf") .invoice "job-6" (by decide)).2 (by decide)
  exact ⟨by decide, by decide, h.1, by
    have := h.2.2.2.2.2
    simpa using this⟩

/-- C8: the worker writes the Result Cache exactly when the pipeline
succeeds: on success the job reaches SUCCESS and the cache holds the job's
result payload under the task's fingerprint; on failure the cache is
completely unchanged, so the cache never stores failures. -/
theorem C8_cache_written_only_on_success (id : String) (fp : Fingerprint)
    (p : PipelineRun) (b : Backend) (c : Cache)
    (h : isTerminal (asyncResult b id).state = false) :
    (∀ steps r, p = .ok steps r →
      asyncResult (runTask id fp p b c).1 id = successMeta r ∧
      (runTask id fp p b c).2 = c.put fp r ∧
      ((runTask id fp p b c).2).lookup fp = some r) ∧
    (∀ steps e, p = .err steps e → (runTask id fp p b c).2 = c) := by
  constructor
  · intro steps r hp
    subst hp
    have hm := runTask_ok_meta id fp steps r b c h
    refine ⟨hm.1, hm.2, ?_⟩
    rw [hm.2]
    simp [Cache.lookup, Cache.put, alookup_aset_self]
  · intro steps e hp
    subst hp
    exact (runTask_err_meta id fp steps e b c h).2

theorem C8_witness :
    isTerminal (asyncResult (Backend.mk []) "job-7").state = false ∧
    (runTask "job-7" ("doc7", .trial_balance)
        (.err []
          { kind := "RuntimeError", message := "ocr failed" })
        (Backend.mk [])
        (Cache.mk
          [(("old", .invoice),
            { extracted_data := "od"
              reports := "or"
              document_type := .invoice
              filename := "o.pdf" })])).2 =
      Cache.mk
        [(("old", .invoice),
          { extracted_data := "od"
            reports := "or"
            document_type := .invoice
            filename := "o.pdf" })] :=
  ⟨by decide,
   (C8_cache_written_only_on_success "job-7" ("doc7", .trial_balance)
      (.err [] { kind := "RuntimeError", message := "ocr failed" })
      (Backend.mk [])
      (Cache.mk
        [(("old", .invoice),
          { extracted_data := "od"
            reports := "or"
            document_type := .invoice
            filename := "o.pdf" })])
      (by decide)).2 []
    { kind := "RuntimeError", message := "ocr failed" } rfl⟩

/-- C9: every task the submission path enqueues beyond those already in the
queue is routed to the dedicated `document_processing` queue, which is
exactly the queue the worker launch script consumes and is distinct from
Celery's shared default queue. -/
theorem C9_dedicated_queue_routing (c : Cache) (b : Backend)
    (q : List TaskMsg) (d : Document) (t : DocumentType) (newId : String) :
    (∀ task ∈ (submit c b q d t newId).2.2,
      task ∈ q ∨
        (task.queue = documentProcessingQueue ∧
          task.queue ∈ workerConsumedQueues)) ∧
    workerConsumedQueues = [documentProcessingQueue] ∧
    documentProcessingQueue ≠ celeryDefaultQueue := by
  refine ⟨?_, rfl, by decide⟩
  intro task htask
  cases hc : c.lookup (fingerprint d t) with
  | some r =>
      left
      simpa [submit, hc] using htask
  | none =>
      simp [submit, hc] at htask
      cases htask with
      | inl hin => exact Or.inl hin
      | inr hnew =>
          right
          subst hnew
          refine ⟨rfl, ?_⟩
          show documentProcessingQueue ∈ workerConsumedQueues
          decide

theorem C9_witness :
    (submit (Cache.mk []) (Backend.mk []) []
        (Document.mk "stmt" "d9.pdf") .bank_statement "job-9").2.2 =
      [{ job_id := "job-9"
         fp := fingerprint (Document.mk "stmt" "d9.pdf") .bank_statement
         queue := documentProcessingQueue }] ∧
    ({ job_id := "job-9"
       fp := fingerprint (Document.mk "stmt" "d9.pdf") .bank_statement
       queue := documentProcessingQueue } : TaskMsg) ∈
        (submit (Cache.mk []) (Backend.mk []) []
          (Document.mk "stmt" "d9.pdf") .bank_statement "job-9").2.2 ∧
    ({ job_id := "job-9"
       fp := fingerprint (Document.mk "stmt" "d9.pdf") .bank_statement
       queue := documentProcessingQueue } : TaskMsg).queue ∈
      workerConsumedQueues := by
  refine ⟨by decide, by decide, ?_⟩
  have h := (C9_dedicated_queue_routing (Cache.mk []) (Backend.mk []) []
    (Document.mk "stmt" "d9.pdf") .bank_statement "job-9").1
    { job_id := "job-9"
      fp := fingerprint (Document.mk "stmt" "d9.pdf") .bank_statement
      queue := documentProcessingQueue } (by decide)
  cases h with
  | inl hin => cases hin
  | inr hr => exact hr.2

/-- C10: for a job the worker completed successfully, the result endpoint
(reading `task.result` with the `task.info` fallback) returns exactly the
payload that the status endpoint embeds inline in its completed response —
the two read paths expose the same value. -/
theorem C10_result_read_paths_agree (id : String) (fp : Fingerprint)
    (steps : List (Nat × String)) (r : ResultPayload)
    (b : Backend) (c : Cache)
    (h : isTerminal (asyncResult b id).state = false) :
    jobResult (runTask id fp (.ok steps r) b c).1 id = .completed r ∧
    (jobStatus (runTask id fp (.ok steps r) b c).1 id).result = some r ∧
    (jobStatus (runTask id fp (.ok steps r) b c).1 id).status =
      "completed" := by
  have hm := (runTask_ok_meta id fp steps r b c h).1
  refine ⟨?_, ?_, ?_⟩
  · simp [jobResult, hm, successMeta]
  · simp [jobStatus, hm, successMeta]
  · simp [jobStatus, hm, successMeta, statusName]

theorem C10_witness :
    isTerminal (asyncResult (Backend.mk []) "job-10").state = false ∧
    jobResult
        (runTask "job-10" ("doc10", .invoice)
          (.ok [(40, "extracting")]
            { extracted_data := "d10"
              reports := "r10"
              document_type := .invoice
              filename := "ten.pdf" })
          (Backend.mk []) (Cache.mk [])).1 "job-10" =
      .completed
        { extracted_data := "d10"
          reports := "r10"
          document_type := .invoice
          filename := "ten.pdf" } ∧
    (jobStatus
        (runTask "job-10" ("doc10", .invoice)
          (.ok [(40, "extracting")]
            { extracted_data := "d10"
              reports := "r10"
              document_type := .invoice
              filename := "ten.pdf" })
          (Backend.mk []) (Cache.mk [])).1 "job-10").result =
      some
        { extracted_data := "d10"
          reports := "r10"
          document_type := .invoice
          filename := "ten.pdf" } := by
  have h := C10_result_read_paths_agree "job-10" ("doc10", .invoice)
    [(40, "extracting")]
    { extracted_data := "d10"
      reports := "r10"
      document_type := .invoice
      filename := "ten.pdf" }
    (Backend.mk []) (Cache.mk []) (by decide)
  exact ⟨by decide, h.1, h.2.1⟩

theorem lastD_mem : ∀ (l : List Nat) (d : Nat), lastD l d = d ∨ lastD l d ∈ l := by
  intro l
  induction l with
  | nil => intro d; exact Or.inl rfl
  | cons x xs ih =>
      intro d
      rw [lastD_cons]
      cases ih x with
      | inl h => exact Or.inr (by rw [h]; exact List.mem_cons_self x xs)
      | inr h => exact Or.inr (List.mem_cons_of_mem x h)

theorem chain_le_zero_cons (l : List Nat) (h : List.Chain' (· ≤ ·) l) :
    List.Chain' (· ≤ ·) (0 :: l) := by
  cases l with
  | nil => simp
  | cons x xs => exact List.Chain'.cons (Nat.zero_le x) h

theorem chain_append_last :
    ∀ (l : List Nat) (a F : Nat),
      List.Chain' (· ≤ ·) (a :: l) → lastD l a ≤ F →
      List.Chain' (· ≤ ·) ((a :: l) ++ [F]) := by
  intro l
  induction l with
  | nil =>
      intro a F _ hle
      exact List.chain'_cons.mpr ⟨hle, List.chain'_singleton F⟩
  | cons x xs ih =>
      intro a F hch hle
      have hax : a ≤ x := (List.chain'_cons.mp hch).1
      have hcx : List.Chain' (· ≤ ·) (x :: xs) := (List.chain'_cons.mp hch).2
      have htail := ih x F hcx (by simpa [lastD_cons] using hle)
      exact List.Chain'.cons hax htail

theorem progressTrace_ok (id : String) (fp : Fingerprint)
    (steps : List (Nat × String)) (r : ResultPayload)
    (b : Backend) (c : Cache) (hfresh : b.lookup id = none) :
    progressTrace id fp (.ok steps r) b c =
      (0 :: 0 :: steps.map Prod.fst) ++ [100] := by
  have h0 := asyncResult_of_lookup_none b id hfresh
  have hterm : isTerminal (asyncResult b id).state = false := by
    rw [h0]; rfl
  have hmark := asyncResult_markProcessing b id hterm
  have hp : (asyncResult (markProcessing id b) id).state = .PROCESSING := by
    rw [hmark]
  have hsnap := stepSnapshots_map_progress id steps (markProcessing id b) hp
  have hmprog : (asyncResult (markProcessing id b) id).progress = 0 := by
    rw [hmark]
  have hfin := (runTask_ok_meta id fp steps r b c hterm).1
  simp only [progressTrace, taskSnapshots, PipelineRun.steps,
    List.map_cons, List.map_append, hsnap, hmprog, h0, hfin]
  rfl

theorem progressTrace_err (id : String) (fp : Fingerprint)
    (steps : List (Nat × String)) (e : StructuredError)
    (b : Backend) (c : Cache) (hfresh : b.lookup id = none) :
    progressTrace id fp (.err steps e) b c =
      (0 :: 0 :: steps.map Prod.fst) ++ [lastD (steps.map Prod.fst) 0] := by
  have h0 := asyncResult_of_lookup_none b id hfresh
  have hterm : isTerminal (asyncResult b id).state = false := by
    rw [h0]; rfl
  have hmark := asyncResult_markProcessing b id hterm
  have hp : (asyncResult (markProcessing id b) id).state = .PROCESSING := by
    rw [hmark]
  have hsnap := stepSnapshots_map_progress id steps (markProcessing id b) hp
  have hmprog : (asyncResult (markProcessing id b) id).progress = 0 := by
    rw [hmark]
  have hfin := (runTask_err_meta id fp steps e b c hterm).1
  simp only [progressTrace, taskSnapshots, PipelineRun.steps,
    List.map_cons, List.map_append, hsnap, hmprog, h0, hfin]
  rfl

/-- C6: for a fresh job whose pipeline reports in-range, non-decreasing
progress callbacks, every progress value observable through repeated Status
polls over the whole execution — queued, processing, each callback, and
the terminal write — lies between 0 and 100 and the observed sequence is
monotonically non-decreasing until the terminal state. -/
theorem C6_progress_monotone_bounded (id : String) (fp : Fingerprint)
    (p : PipelineRun) (b : Backend) (c : Cache)
    (hfresh : b.lookup id = none)
    (hbound : ∀ s ∈ p.steps, s.1 ≤ 100)
    (hmono : List.Chain' (· ≤ ·) (p.steps.map Prod.fst)) :
    List.Chain' (· ≤ ·) (progressTrace id fp p b c) ∧
    ∀ x ∈ progressTrace id fp p b c, x ≤ 100 := by
  have hbound' : ∀ x ∈ p.steps.map Prod.fst, x ≤ 100 := by
    intro x hx
    obtain ⟨s, hs, rfl⟩ := List.mem_map.mp hx
    exact hbound s hs
  have hlast : lastD (p.steps.map Prod.fst) 0 ≤ 100 := by
    cases lastD_mem (p.steps.map Prod.fst) 0 with
    | inl h => rw [h]; exact Nat.zero_le 100
    | inr h => exact hbound' _ h
  have hchain2 : List.Chain' (· ≤ ·) (0 :: 0 :: p.steps.map Prod.fst) :=
    chain_le_zero_cons _ (chain_le_zero_cons _ hmono)
  cases p with
  | ok steps r =>
      rw [progressTrace_ok id fp steps r b c hfresh]
      constructor
      · refine chain_append_last (0 :: steps.map Prod.fst) 0 100 hchain2 ?_
        simpa [lastD_cons] using hlast
      · intro x hx
        rcases List.mem_append.mp hx with h | h
        · rcases List.mem_cons.mp h with h0 | h
          · omega
          · rcases List.mem_cons.mp h with h0 | h
            · omega
            · exact hbound' x h
        · have hx100 := List.mem_singleton.mp h
          omega
  | err steps e =>
      rw [progressTrace_err id fp steps e b c hfresh]
      constructor
      · refine chain_append_last (0 :: steps.map Prod.fst) 0
          (lastD (steps.map Prod.fst) 0) hchain2 ?_
        simp [lastD_cons]
      · intro x hx
        rcases List.mem_append.mp hx with h | h
        · rcases List.mem_cons.mp h with h0 | h
          · omega
          · rcases List.mem_cons.mp h with h0 | h
            · omega
            · exact hbound' x h
        · have hxl := List.mem_singleton.mp h
          rw [hxl]
          exact hlast

theorem C6_witness :
    (Backend.mk []).lookup "job-11" = none ∧
    (∀ s ∈ (PipelineRun.ok [(30, "parsing"), (70, "extracting")]
        { extracted_data := "d11"
          reports := "r11"
          document_type := .bank_statement
          filename := "b.pdf" }).steps, s.1 ≤ 100) ∧
    List.Chain' (· ≤ ·)
      ((PipelineRun.ok [(30, "parsing"), (70, "extracting")]
        { extracted_data := "d11"
          reports := "r11"
          document_type := .bank_statement
          filename := "b.pdf" }).steps.map Prod.fst) ∧
    (List.Chain' (· ≤ ·)
        (progressTrace "job-11" ("doc11", .bank_statement)
          (.ok [(30, "parsing"), (70, "extracting")]
            { extracted_data := "d11"
              reports := "r11"
              document_type := .bank_statement
              filename := "b.pdf" })
          (Backend.mk []) (Cache.mk [])) ∧
      ∀ x ∈ progressTrace "job-11" ("doc11", .bank_statement)
          (.ok [(30, "parsing"), (70, "extracting")]
            { extracted_data := "d11"
              reports := "r11"
              document_type := .bank_statement
              filename := "b.pdf" })
          (Backend.mk []) (Cache.mk []), x ≤ 100) := by
  have hmono : List.Chain' (· ≤ ·)
      ((PipelineRun.ok [(30, "parsing"), (70, "extracting")]
        { extracted_data := "d11"
          reports := "r11"
          document_type := .bank_statement
          filename := "b.pdf" }).steps.map Prod.fst) := by
    show List.Chain' (· ≤ ·) [30, 70]
    norm_num [List.chain'_cons, List.chain'_singleton]
  refine ⟨by decide, by decide, hmono, ?_⟩
  exact C6_progress_monotone_bounded "job-11" ("doc11", .bank_statement)
    (.ok [(30, "parsing"), (70, "extracting")]
      { extracted_data := "d11"
        reports := "r11"
        document_type := .bank_statement
        filename := "b.pdf" })
    (Backend.mk []) (Cache.mk []) (by decide) (by decide) hmono

end FinSight
